import Mathlib

/-!
Shallow embedding of the resilient AI-invocation layer of the
ai-job-assistant backend: the response cache (src/utils/aiCache.js), the
backoff executor (src/utils/retryWithBackoff.js), the API call monitor
(APIMonitor in src/utils), and the analysis orchestrator
(src/modules/job-match/ai.service.js), together with theorems settling the
frozen specification claims.

Modelling conventions: JavaScript numbers that hold counts, sizes and
millisecond timestamps are `Nat`; delay durations (which mix in a random
jitter factor) are `Rat`; JavaScript `undefined`/missing object fields are
`Option`; a thrown JS error value is the `JSError` structure below; the
in-memory `Map` backing the cache is a function `String → Option CacheEntry`.
All `Date.now()` reads inside one invocation are modelled as a single
instant `now` passed explicitly.
-/

namespace AIJob

/-! ### JavaScript string primitives used by the embedded code -/

/-- Whitespace class of JavaScript regular expressions (ASCII part),
used for `\s`, `String.prototype.trim` and friends. -/
def jsSpace (c : Char) : Bool :=
  c == ' ' || c == '\t' || c == '\n' || c == '\r' ||
  c == Char.ofNat 11 || c == Char.ofNat 12

/-- Embedding of `String.prototype.trim`. -/
def trimChars (cs : List Char) : List Char :=
  ((cs.dropWhile jsSpace).reverse.dropWhile jsSpace).reverse

/-- Case-insensitive "text begins with pattern" test (ASCII folding via
`Char.toLower`), the building block for the `/i` regex flag. -/
def startsWithCI : List Char → List Char → Bool
  | [], _ => true
  | _ :: _, [] => false
  | p :: ps, c :: cs => (p.toLower == c.toLower) && startsWithCI ps cs

/-- Suffix of `text` right after the first case-insensitive occurrence of
`label`, or `none` when `label` does not occur. -/
def afterCI (label : List Char) : List Char → Option (List Char)
  | [] => if label.isEmpty then some [] else none
  | c :: cs =>
    if startsWithCI label (c :: cs) then some ((c :: cs).drop label.length)
    else afterCI label cs

/-- Prefix of `text` up to (excluding) the first case-insensitive
occurrence of `label`; the whole text when `label` does not occur.  This is
the lazy capture `(.*?)(?=label|$)` with the `/is` flags. -/
def uptoCI (label : List Char) : List Char → List Char
  | [] => []
  | c :: cs => if startsWithCI label (c :: cs) then [] else c :: uptoCI label cs

/-- Decimal value of a digit run (the behaviour of `parseInt` on an
all-digit string, exact because results above 100 are clamped anyway). -/
def digitsToNat (ds : List Char) : ℕ :=
  ds.foldl (fun n c => n * 10 + (c.toNat - 48)) 0

/-- Search for `/label\s*(\d+)/i`: at the first case-insensitive occurrence
of `label` followed by optional whitespace and at least one digit, return
the value of the greedy digit run; keep scanning otherwise. -/
def scanLabelNum (label : List Char) : List Char → Option ℕ
  | [] => none
  | c :: cs =>
    let rest := ((c :: cs).drop label.length).dropWhile jsSpace
    let ds := rest.takeWhile Char.isDigit
    if startsWithCI label (c :: cs) && !ds.isEmpty then some (digitsToNat ds)
    else scanLabelNum label cs

/-- Substring containment, the embedding of `String.prototype.includes`. -/
def containsSub (needle : List Char) : List Char → Bool
  | [] => needle.isEmpty
  | c :: cs => startsWithCI' needle (c :: cs) || containsSub needle cs
where
  /-- Case-sensitive "begins with" used by `includes`. -/
  startsWithCI' : List Char → List Char → Bool
    | [], _ => true
    | _ :: _, [] => false
    | p :: ps, c :: cs => (p == c) && startsWithCI' ps cs

/-- Containment test on `Option String`, the embedding of the JS optional
chain `x?.includes(sub)` used in truth position (`undefined` is falsy). -/
def includesOpt (s : Option String) (sub : String) : Bool :=
  match s with
  | none => false
  | some s => containsSub sub.data s.data

/-! ### SHA-256 (crypto.createHash('sha256').update(s).digest('hex')) -/

/-- UTF-8 encoding of one character. -/
def utf8Bytes (c : Char) : List ℕ :=
  let n := c.toNat
  if n < 0x80 then [n]
  else if n < 0x800 then [0xC0 ||| (n >>> 6), 0x80 ||| (n &&& 0x3F)]
  else if n < 0x10000 then
    [0xE0 ||| (n >>> 12), 0x80 ||| ((n >>> 6) &&& 0x3F), 0x80 ||| (n &&& 0x3F)]
  else
    [0xF0 ||| (n >>> 18), 0x80 ||| ((n >>> 12) &&& 0x3F),
     0x80 ||| ((n >>> 6) &&& 0x3F), 0x80 ||| (n &&& 0x3F)]

/-- UTF-8 bytes of a string. -/
def strBytes (s : String) : List ℕ := (s.data.map utf8Bytes).flatten

/-- Big-endian byte expansion of `v` into `n` bytes. -/
def beBytes (n v : ℕ) : List ℕ :=
  (List.range n).reverse.map (fun i => (v >>> (8 * i)) % 256)

/-- SHA-256 message padding. -/
def sha256Pad (msg : List ℕ) : List ℕ :=
  let k := (64 - ((msg.length + 9) % 64)) % 64
  msg ++ [0x80] ++ List.replicate k 0 ++ beBytes 8 (msg.length * 8)

/-- Big-endian 32-bit words from a byte list. -/
def toWords : List ℕ → List ℕ
  | a :: b :: c :: d :: rest => (((a * 256 + b) * 256 + c) * 256 + d) :: toWords rest
  | _ => []

/-- Group a word list into 16-word blocks. -/
def chunks16 (ws : List ℕ) : List (List ℕ) :=
  if h : ws = [] then []
  else ws.take 16 :: chunks16 (ws.drop 16)
termination_by ws.length
decreasing_by
  simp only [List.length_drop]
  have : 0 < ws.length := List.length_pos.mpr h
  omega

/-- Right rotation of a 32-bit word. -/
def ror32 (x n : ℕ) : ℕ := ((x >>> n) ||| (x <<< (32 - n))) % 4294967296

/-- Round constants of SHA-256. -/
def sha256K : List ℕ :=
  [1116352408, 1899447441, 3049323471, 3921009573, 961987163,
   1508970993, 2453635748, 2870763221, 3624381080, 310598401,
   607225278, 1426881987, 1925078388, 2162078206, 2614888103,
   3248222580, 3835390401, 4022224774, 264347078, 604807628,
   770255983, 1249150122, 1555081692, 1996064986, 2554220882,
   2821834349, 2952996808, 3210313671, 3336571891, 3584528711,
   113926993, 338241895, 666307205, 773529912, 1294757372,
   1396182291, 1695183700, 1986661051, 2177026350, 2456956037,
   2730485921, 2820302411, 3259730800, 3345764771, 3516065817,
   3600352804, 4094571909, 275423344, 430227734, 506948616,
   659060556, 883997877, 958139571, 1322822218, 1537002063,
   1747873779, 1955562222, 2024104815, 2227730452, 2361852424,
   2428436474, 2756734187, 3204031479, 3329325298]

/-- Initial hash state of SHA-256. -/
def sha256H0 : List ℕ :=
  [1779033703, 3144134277, 1013904242, 2773480762,
   1359893119, 2600822924, 528734635, 1541459225]

/-- Message-schedule extension from 16 to 64 words. -/
def extendW (w : List ℕ) : List ℕ :=
  (List.range 48).foldl
    (fun acc _ =>
      let s0 := (ror32 (acc.getD (acc.length - 15) 0) 7) ^^^
                (ror32 (acc.getD (acc.length - 15) 0) 18) ^^^
                ((acc.getD (acc.length - 15) 0) >>> 3)
      let s1 := (ror32 (acc.getD (acc.length - 2) 0) 17) ^^^
                (ror32 (acc.getD (acc.length - 2) 0) 19) ^^^
                ((acc.getD (acc.length - 2) 0) >>> 10)
      acc ++ [(acc.getD (acc.length - 16) 0 + s0 + acc.getD (acc.length - 7) 0 + s1) % 4294967296])
    w

/-- One SHA-256 compression step over a 16-word chunk. -/
def sha256Compress (h : List ℕ) (chunk : List ℕ) : List ℕ :=
  let w := extendW chunk
  let final := (List.range 64).foldl
    (fun st i =>
      match st with
      | [a, b, c, d, e, f, g, hh] =>
        let S1 := (ror32 e 6) ^^^ (ror32 e 11) ^^^ (ror32 e 25)
        let ch := (e &&& f) ^^^ ((e ^^^ 0xFFFFFFFF) &&& g)
        let t1 := (hh + S1 + ch + sha256K.getD i 0 + w.getD i 0) % 4294967296
        let S0 := (ror32 a 2) ^^^ (ror32 a 13) ^^^ (ror32 a 22)
        let mj := (a &&& b) ^^^ (a &&& c) ^^^ (b &&& c)
        let t2 := (S0 + mj) % 4294967296
        [(t1 + t2) % 4294967296, a, b, c, (d + t1) % 4294967296, e, f, g]
      | st => st)
    h
  (h.zip final).map (fun p => (p.1 + p.2) % 4294967296)

/-- Lower-case hexadecimal digit. -/
def hexDigit (n : ℕ) : Char :=
  if n < 10 then Char.ofNat (48 + n) else Char.ofNat (87 + n)

/-- Eight-hex-digit rendering of a 32-bit word. -/
def wordToHex (v : ℕ) : List Char :=
  (List.range 8).reverse.map (fun i => hexDigit ((v >>> (4 * i)) % 16))

/-- Hex digest of SHA-256 over the UTF-8 bytes of `s`, the embedding of
`crypto.createHash('sha256').update(s).digest('hex')`. -/
def sha256Hex (s : String) : String :=
  String.mk ((((chunks16 (toWords (sha256Pad (strBytes s)))).foldl
    sha256Compress sha256H0).map wordToHex).flatten)

/-! ### JSON serialization (the JSON.stringify fragment used by generateKey) -/

/-- JSON string escaping of one character as performed by
`JSON.stringify` on string values. -/
def jsonEscapeChar (c : Char) : List Char :=
  if c == '"' then ['\\', '"']
  else if c == '\\' then ['\\', '\\']
  else if c == '\n' then ['\\', 'n']
  else if c == '\r' then ['\\', 'r']
  else if c == '\t' then ['\\', 't']
  else if c == Char.ofNat 8 then ['\\', 'b']
  else if c == Char.ofNat 12 then ['\\', 'f']
  else if c.toNat < 32 then
    ['\\', 'u', '0', '0', hexDigit (c.toNat / 16), hexDigit (c.toNat % 16)]
  else [c]

/-- JSON rendering of a string value. -/
def jsonStr (s : String) : String :=
  String.mk ('"' :: (s.data.map jsonEscapeChar).flatten ++ ['"'])

/-- JSON rendering of an array of strings. -/
def jsonStrArr (l : List String) : String :=
  "[" ++ String.intercalate "," (l.map jsonStr) ++ "]"

/-! ### Data model (user profile and job details, per the schema in
src/modules/auth and the readers in src/modules/job-match/ai.service.js) -/

/-- Personal-information section of a user profile. -/
structure BasicInfo where
  username : Option String
  age : Option ℕ
  location : Option String
  email : Option String
deriving DecidableEq

/-- Professional-background section of a user profile. -/
structure ProfessionalInfo where
  currentTitle : Option String
  currentCompany : Option String
  experienceYears : Option ℕ
  industry : Option String
deriving DecidableEq

/-- Skills section of a user profile.  Per the user schema (auth module)
this section holds exactly `skills`, `hobbiesAndInterests` and
`softSkills`; it has no `education` member — education is a separate
top-level section of the profile. -/
structure OtherInfo where
  skills : Option (List String)
  hobbiesAndInterests : Option (List String)
  softSkills : Option (List String)
deriving DecidableEq

/-- Education section of a user profile. -/
structure EducationInfo where
  degree : Option String
  university : Option String
  graduationYear : Option ℕ
  certifications : Option (List String)
deriving DecidableEq

/-- Job-preferences section of a user profile. -/
structure JobPreferences where
  jobTypes : Option (List String)
  workModes : Option (List String)
  preferredLocations : Option (List String)
  desiredRoles : Option (List String)
deriving DecidableEq

/-- User profile as consumed by the orchestrator. -/
structure UserProfile where
  basicInfo : Option BasicInfo
  professionalInfo : Option ProfessionalInfo
  otherInfo : Option OtherInfo
  education : Option EducationInfo
  jobPreferences : Option JobPreferences
deriving DecidableEq

/-- Job-posting details as consumed by the orchestrator. -/
structure JobDetails where
  jobTitle : Option String
  company : Option String
  location : Option String
  jobDescription : Option String
  requirements : Option String
  jobUrl : Option String
deriving DecidableEq

/-! ### Response cache (src/utils/aiCache.js) -/

/-- Structured analysis result produced by `parseAIResponse`. -/
structure AnalysisResult where
  matchingPercentage : ℕ
  strengths : List String
  areasToImprove : List String
  detailedAnalysis : String
deriving DecidableEq

/-- Cache entry: stored data plus absolute expiry instant. -/
structure CacheEntry where
  data : AnalysisResult
  expiresAt : ℕ
deriving DecidableEq

/-- In-memory cache map (the `Map` of AICache). -/
def Cache : Type := String → Option CacheEntry

/-- Cache with no entries. -/
def emptyCache : Cache := fun _ => none

/-- Default TTL of the AICache singleton: one hour in milliseconds. -/
def defaultTtl : ℕ := 3600000

/-- Embedding of `AICache.generateKey`: JSON.stringify of the normalized
field subsets, then a SHA-256 hex digest.  The `education` component reads
`userProfile.otherInfo?.education`; the profile schema has no such member
(education is a sibling of `otherInfo`), so `otherInfo?.education || []`
always serializes as the empty array. -/
def combinedString (u : UserProfile) (jd : JobDetails) : String :=
  "\x7b\"user\":\x7b\"skills\":" ++
    jsonStrArr ((u.otherInfo.bind (fun o => o.skills)).getD []) ++
  ",\"experience\":" ++
    toString ((u.professionalInfo.bind (fun p => p.experienceYears)).getD 0) ++
  ",\"currentTitle\":" ++
    jsonStr ((u.professionalInfo.bind (fun p => p.currentTitle)).getD "") ++
  ",\"education\":[]\x7d,\"job\":\x7b\"title\":" ++
    jsonStr (jd.jobTitle.getD "") ++
  ",\"description\":" ++ jsonStr (jd.jobDescription.getD "") ++
  ",\"requirements\":" ++ jsonStr (jd.requirements.getD "") ++
  ",\"company\":" ++ jsonStr (jd.company.getD "") ++ "\x7d\x7d"

/-- Embedding of `AICache.generateKey`. -/
def generateKey (u : UserProfile) (jd : JobDetails) : String :=
  sha256Hex (combinedString u jd)

/-- Embedding of `AICache.get` at instant `now`: the returned value (or
`none`) together with the cache after the lazy eviction performed by the
read. -/
def cacheGet (c : Cache) (key : String) (now : ℕ) : Option AnalysisResult × Cache :=
  match c key with
  | none => (none, c)
  | some cached =>
    if now > cached.expiresAt then
      (none, fun k => if k = key then none else c k)
    else
      (some cached.data, c)

/-- Embedding of `AICache.set` at instant `now`. -/
def cacheSet (c : Cache) (key : String) (data : AnalysisResult) (now ttl : ℕ) : Cache :=
  fun k => if k = key then some { data := data, expiresAt := now + ttl } else c k

/-- Embedding of `AICache.clearExpired`, the periodic background sweep. -/
def clearExpired (c : Cache) (now : ℕ) : Cache :=
  fun k => match c k with
    | some cached => if now > cached.expiresAt then none else some cached
    | none => none

/-! ### Call monitor (APIMonitor, src/utils) -/

/-- Thrown JavaScript error value as observed by the monitor, the retry
predicate and the orchestrator's catch block.  `isAPIError` models the
`instanceof OpenAI.APIError` test; `responseStatus` models
`error.response?.status`. -/
structure JSError where
  message : Option String
  status : Option ℕ
  code : Option String
  responseStatus : Option ℕ
  isAPIError : Bool
deriving DecidableEq

/-- Entry of the monitor's bounded error log. -/
structure ErrorEntry where
  timestamp : ℕ
  message : Option String
  status : Option ℕ
  code : Option String
deriving DecidableEq

/-- Counters and error log of the APIMonitor singleton. -/
structure MonitorStats where
  totalCalls : ℕ
  successfulCalls : ℕ
  failedCalls : ℕ
  cacheHits : ℕ
  quotaErrors : ℕ
  retries : ℕ
  lastError : Option ℕ
  lastSuccess : Option ℕ
  errors : List ErrorEntry
deriving DecidableEq

/-- Monitor state as built by the APIMonitor constructor. -/
def initialStats : MonitorStats :=
  { totalCalls := 0, successfulCalls := 0, failedCalls := 0, cacheHits := 0,
    quotaErrors := 0, retries := 0, lastError := none, lastSuccess := none,
    errors := [] }

/-- Bound on the monitor's error log (`this.maxErrors`). -/
def maxErrors : ℕ := 50

/-- Embedding of `APIMonitor.recordCall`. -/
def recordCall (s : MonitorStats) : MonitorStats :=
  { s with totalCalls := s.totalCalls + 1 }

/-- Embedding of `APIMonitor.recordSuccess` at instant `now`. -/
def recordSuccess (s : MonitorStats) (now : ℕ) : MonitorStats :=
  { s with successfulCalls := s.successfulCalls + 1, lastSuccess := some now }

/-- Embedding of `APIMonitor.recordCacheHit`. -/
def recordCacheHit (s : MonitorStats) : MonitorStats :=
  { s with cacheHits := s.cacheHits + 1 }

/-- Embedding of `APIMonitor.recordRetry`. -/
def recordRetry (s : MonitorStats) : MonitorStats :=
  { s with retries := s.retries + 1 }

/-- Quota/rate-limit classification used by `recordFailure`: message
contains "quota", or message contains "429", or status is 429. -/
def isQuotaSignal (e : JSError) : Bool :=
  includesOpt e.message "quota" || includesOpt e.message "429" ||
  e.status == some 429

/-- Embedding of `APIMonitor.recordFailure` at instant `now`: bump the
failure counter, stamp lastError, bump the quota counter when the error
matches a quota/rate-limit signal, and unshift the log entry, slicing the
log back to `maxErrors` when it overflows.  (The source mutates the same
fields one after another; this is the combined state it leaves behind.) -/
def recordFailure (s : MonitorStats) (e : JSError) (now : ℕ) : MonitorStats :=
  let errs := ({ timestamp := now, message := e.message, status := e.status,
                 code := e.code : ErrorEntry }) :: s.errors
  { s with failedCalls := s.failedCalls + 1,
           lastError := some now,
           quotaErrors := s.quotaErrors + (if isQuotaSignal e then 1 else 0),
           errors := if errs.length > maxErrors then errs.take maxErrors else errs }

/-- Cumulative success rate used by `getHealth` (1 when no calls yet). -/
def successRate (s : MonitorStats) : ℚ :=
  if s.totalCalls > 0 then (s.successfulCalls : ℚ) / (s.totalCalls : ℚ) else 1

/-- Embedding of `APIMonitor.isQuotaErrorFrequent` (30% of failed calls). -/
def isQuotaErrorFrequent (s : MonitorStats) : Bool :=
  decide (s.failedCalls > 0) &&
  decide ((s.quotaErrors : ℚ) / (s.failedCalls : ℚ) > 3 / 10)

/-- Derived health assessment returned by `getHealth`. -/
structure Health where
  status : String
  successRate : ℚ
  recommendations : List String
  lastError : Option ℕ
  lastSuccess : Option ℕ
deriving DecidableEq

/-- Embedding of `APIMonitor.getHealth`: sequential status/recommendation
derivation (the high-retry check only appends recommendations). -/
def getHealth (s : MonitorStats) : Health :=
  let rate := successRate s
  let p1 : String × List String :=
    if rate < 1 / 2 then
      ("critical", ["More than 50% of API calls are failing",
                    "Check OpenAI API status and billing"])
    else if rate < 4 / 5 then
      ("warning", ["Success rate is below 80%",
                   "Monitor API usage and errors"])
    else ("healthy", [])
  let p2 : String × List String :=
    if isQuotaErrorFrequent s then
      ((if p1.1 = "critical" then "critical" else "warning"),
       p1.2 ++ ["Frequent quota errors detected",
                "Consider upgrading OpenAI plan or reducing usage"])
    else p1
  let recs :=
    if s.retries > s.successfulCalls * 2 then
      p2.2 ++ ["High retry rate detected",
               "Check network connectivity and API response times"]
    else p2.2
  { status := p2.1, successRate := rate * 100, recommendations := recs,
    lastError := s.lastError, lastSuccess := s.lastSuccess }


/-! ### Backoff executor (src/utils/retryWithBackoff.js) -/

deriving instance DecidableEq for Except

/-- Capped exponential delay of attempt index `attempt`:
`Math.min(baseDelay * Math.pow(2, attempt), maxDelay)`. -/
def expDelay (base maxD : ℚ) (attempt : ℕ) : ℚ :=
  min (base * 2 ^ attempt) maxD

/-- Full inter-attempt delay: capped exponential delay plus jitter
`j * 0.3 * exponentialDelay`, where `j` is the `Math.random()` draw. -/
def attemptDelay (base maxD : ℚ) (j : ℚ) (attempt : ℕ) : ℚ :=
  expDelay base maxD attempt + j * (3 / 10) * expDelay base maxD attempt

/-- Observable trace of one `retryWithBackoff` run: its outcome (the
thrown value is `none` exactly when the loop never ran and the undefined
`lastError` is thrown), the number of invocations of the operation, the
number of invocations of the `shouldRetry` predicate, and the delays
waited before each retry, in order. -/
structure RetryTrace (ε α : Type) where
  result : Except (Option ε) α
  attempts : ℕ
  predCalls : ℕ
  delays : List ℚ
deriving DecidableEq

/-- Loop of `retryWithBackoff`, structured over the number of remaining
iterations; `attempt` is the loop index, so `remaining + attempt` equals
`maxRetries` throughout.  The guard `!pred e || remaining-1 = 0` is the
source's `!shouldRetry(error) || attempt === maxRetries - 1` (JavaScript
evaluates `shouldRetry(error)` first, which is why `predCalls` counts one
call on every failed attempt, retried or not). -/
def retryGo (fn : ℕ → Except ε α) (pred : ε → Bool) (base maxD : ℚ)
    (jit : ℕ → ℚ) : ℕ → ℕ → RetryTrace ε α
  | 0, _ => { result := .error none, attempts := 0, predCalls := 0, delays := [] }
  | r + 1, attempt =>
    match fn attempt with
    | .ok a => { result := .ok a, attempts := 1, predCalls := 0, delays := [] }
    | .error e =>
      if !pred e || r == 0 then
        { result := .error (some e), attempts := 1, predCalls := 1, delays := [] }
      else
        let t := retryGo fn pred base maxD jit r (attempt + 1)
        { result := t.result, attempts := t.attempts + 1,
          predCalls := t.predCalls + 1,
          delays := attemptDelay base maxD (jit attempt) attempt :: t.delays }

/-- Embedding of `retryWithBackoff(fn, options)`.  The operation is a
function of the attempt index (outcome of its i-th invocation); `jit`
supplies the `Math.random()` draws. -/
def retryWithBackoff (fn : ℕ → Except ε α) (pred : ε → Bool)
    (base maxD : ℚ) (jit : ℕ → ℚ) (maxRetries : ℕ) : RetryTrace ε α :=
  retryGo fn pred base maxD jit maxRetries 0

/-! ### Response parsing (parseAIResponse / extractListItems) -/

/-- Characters of the match-percentage label. -/
def mpLabel : List Char := "MATCHING_PERCENTAGE:".data

/-- Characters of the strengths-section label. -/
def strengthsLabel : List Char := "STRENGTHS:".data

/-- Characters of the improvements-section label. -/
def areasLabel : List Char := "AREAS_TO_IMPROVE:".data

/-- Characters of the narrative-section label. -/
def detailedLabel : List Char := "DETAILED_ANALYSIS:".data

/-- Test for `/^[-*•]\s/` after trimming. -/
def bulletSpace (cs : List Char) : Bool :=
  match cs with
  | m :: w :: _ => (m == '-' || m == '*' || m == '•') && jsSpace w
  | _ => false

/-- Test for `/^\d+\.\s/` after trimming. -/
def numDotSpace (cs : List Char) : Bool :=
  let ds := cs.takeWhile Char.isDigit
  if ds.isEmpty then false
  else match cs.drop ds.length with
    | '.' :: w :: _ => jsSpace w
    | _ => false

/-- Removal of a leading bullet marker (`replace(/^[-*•]\s/, '')`). -/
def stripBullet (cs : List Char) : List Char :=
  if bulletSpace cs then cs.drop 2 else cs

/-- Removal of a leading ordinal marker (`replace(/^\d+\.\s/, '')`). -/
def stripNumDot (cs : List Char) : List Char :=
  if numDotSpace cs then cs.drop ((cs.takeWhile Char.isDigit).length + 2) else cs

/-- Embedding of `extractListItems`: split on newlines, trim, drop empty
lines, keep bullet/ordinal lines, strip markers, trim, drop empties. -/
def extractListItems (cs : List Char) : List String :=
  (((((cs.splitOn '\n').map trimChars).filter (fun l => l.length > 0)).filter
      (fun l => bulletSpace l || numDotSpace l)).map
    (fun l => trimChars (stripNumDot (stripBullet l)))).filterMap
    (fun l => if l.length > 0 then some (String.mk l) else none)

/-- Embedding of `parseAIResponse`: extract the labeled sections, clamp
the score to [0,100] with default 50, keep at most five list items per
section, truncate the narrative to 2000 characters. -/
def parseAIResponse (response : String) : AnalysisResult :=
  let cs := response.data
  let matchingPercentage := (scanLabelNum mpLabel cs).getD 50
  let strengths :=
    match afterCI strengthsLabel cs with
    | some rest => extractListItems (uptoCI areasLabel rest)
    | none => []
  let areasToImprove :=
    match afterCI areasLabel cs with
    | some rest => extractListItems (uptoCI detailedLabel rest)
    | none => []
  let detailedAnalysis :=
    match afterCI detailedLabel cs with
    | some rest => trimChars rest
    | none => cs
  { matchingPercentage := min 100 matchingPercentage,
    strengths := strengths.take 5,
    areasToImprove := areasToImprove.take 5,
    detailedAnalysis := String.mk (detailedAnalysis.take 2000) }

/-! ### Analysis orchestrator (analyzeJobMatch, ai.service.js) -/

/-- Pure part of the orchestrator's `shouldRetry` option (the same
predicate also calls `apiMonitor.recordRetry()` on each invocation, which
the orchestrator model accounts for via `predCalls`). -/
def aiRetryPred (e : JSError) : Bool :=
  e.responseStatus == some 429 || e.status == some 429 ||
  e.code == some "ECONNRESET" || e.code == some "ETIMEDOUT" ||
  includesOpt e.message "429" || includesOpt e.message "quota" ||
  includesOpt e.message "rate limit"

/-- Construction of a fresh `new Error(msg)` value. -/
def mkError (msg : String) : JSError :=
  { message := some msg, status := none, code := none,
    responseStatus := none, isAPIError := false }

/-- Rendering of a template interpolation `${x}` for an optional value
(`undefined` prints as "undefined"). -/
def tmplNat (x : Option ℕ) : String :=
  match x with
  | some n => toString n
  | none => "undefined"

/-- Rendering of `${error.message}` ("undefined" when absent). -/
def tmplStr (x : Option String) : String := x.getD "undefined"

/-- Value of `error.message || fallback` (empty string is falsy). -/
def msgOr (x : Option String) (fallback : String) : String :=
  match x with
  | some m => if m = "" then fallback else m
  | none => fallback

/-- Embedding of the catch-block error classification of
`analyzeJobMatch` (the rethrown wrapped errors). -/
def classifyError (e : JSError) : JSError :=
  if e.isAPIError then
    if e.status == some 429 || e.code == some "rate_limit_exceeded" then
      mkError "OpenAI API error: 429 You exceeded your current quota, please check your plan and billing details. For more information on this error, read the docs: https://platform.openai.com/docs/guides/error-codes/api-errors."
    else if e.code == some "insufficient_quota" then
      mkError "OpenAI API quota exceeded. Please check your billing settings or try again later."
    else if e.status == some 401 then
      mkError "OpenAI API authentication failed. Please check your API key."
    else if e.status == some 400 then
      mkError ("OpenAI API error: Invalid request - " ++ tmplStr e.message)
    else
      mkError ("OpenAI API error: " ++ tmplNat e.status ++ " " ++
               msgOr e.message "Failed to analyze job match")
  else if e.code == some "ECONNREFUSED" || e.code == some "ENOTFOUND" then
    mkError "Unable to connect to OpenAI API. Please check your internet connection."
  else
    mkError ("AI analysis failed: " ++ tmplStr e.message)

/-- Shared process-wide state threaded through an orchestrator call. -/
structure AIState where
  cache : Cache
  monitor : MonitorStats

/-- Observable outcome of one `analyzeJobMatch` invocation: its
result-or-thrown-error, the state afterwards, and the number of provider
(OpenAI) invocations performed. -/
structure AnalyzeOut where
  result : Except JSError AnalysisResult
  state : AIState
  providerCalls : ℕ

/-- Embedding of `AIService.analyzeJobMatch(userProfile, jobDetails)` at
instant `now`.  The provider is a function of the attempt index giving
each call's completion text or thrown error; `jit` supplies the
`Math.random()` draws of the backoff executor.  The retry policy is the
source literal: maxRetries 3, baseDelay 2000, maxDelay 30000, and the
`shouldRetry` option records one retry on the monitor per invocation
before evaluating `aiRetryPred`. -/
def analyzeJobMatch (provider : ℕ → Except JSError String) (jit : ℕ → ℚ)
    (now : ℕ) (st : AIState) (u : UserProfile) (jd : JobDetails) : AnalyzeOut :=
  let key := generateKey u jd
  let g := cacheGet st.cache key now
  match g.1 with
  | some cachedResult =>
      { result := .ok cachedResult,
        state := { cache := g.2, monitor := recordCacheHit st.monitor },
        providerCalls := 0 }
  | none =>
    let m1 := recordCall st.monitor
    let t := retryWithBackoff provider aiRetryPred 2000 30000 jit 3
    let m2 := { m1 with retries := m1.retries + t.predCalls }
    match t.result with
    | .ok completion =>
        let parsedAnalysis := parseAIResponse completion
        { result := .ok parsedAnalysis,
          state := { cache := cacheSet g.2 key parsedAnalysis now defaultTtl,
                     monitor := recordSuccess m2 now },
          providerCalls := t.attempts }
    | .error (some e) =>
        { result := .error (classifyError e),
          state := { cache := g.2, monitor := recordFailure m2 e now },
          providerCalls := t.attempts }
    | .error none =>
        -- Unreachable with maxRetries = 3: the loop body always runs, so a
        -- thrown value is always the operation's own error.  In JavaScript
        -- this path would throw from recordFailure(undefined) after the
        -- failed-call counter was bumped.
        { result := .error (mkError "AI analysis failed: undefined"),
          state := { cache := g.2,
                     monitor := { m2 with failedCalls := m2.failedCalls + 1 } },
          providerCalls := t.attempts }


/-! ### Concrete fixtures used by witnesses and counterexamples -/

/-- Concrete analysis result. -/
def resA : AnalysisResult :=
  { matchingPercentage := 50, strengths := [], areasToImprove := [],
    detailedAnalysis := "" }

/-- Profile with every section absent. -/
def uEmpty : UserProfile :=
  { basicInfo := none, professionalInfo := none, otherInfo := none,
    education := none, jobPreferences := none }

/-- Job details with every field absent. -/
def jdEmpty : JobDetails :=
  { jobTitle := none, company := none, location := none,
    jobDescription := none, requirements := none, jobUrl := none }

/-- Deterministic zero jitter draws. -/
def jit0 : ℕ → ℚ := fun _ => 0

/-- Fresh shared state: empty cache, zeroed monitor. -/
def st0 : AIState := { cache := emptyCache, monitor := initialStats }

/-- Non-retriable provider error (HTTP 400). -/
def e400 : JSError :=
  { message := some "Bad request", status := some 400, code := none,
    responseStatus := none, isAPIError := true }

/-- Retriable quota error (HTTP 429). -/
def e429q : JSError :=
  { message := some "quota exceeded", status := some 429, code := none,
    responseStatus := none, isAPIError := true }

/-- Provider failing every attempt with the 400 error. -/
def provFail400 : ℕ → Except JSError String := fun _ => .error e400

/-- Provider failing every attempt with the 429 quota error. -/
def provFail429 : ℕ → Except JSError String := fun _ => .error e429q

/-- Well-formed completion text with a match percentage of 82. -/
def comp82 : String :=
  "MATCHING_PERCENTAGE: 82\nSTRENGTHS:\n- Solid skills\nAREAS_TO_IMPROVE:\n- More cloud\nDETAILED_ANALYSIS:\nGood fit."

/-- Provider answering every attempt with the well-formed completion. -/
def provOk82 : ℕ → Except JSError String := fun _ => .ok comp82

/-- State whose cache answers every key with an entry expiring at 10. -/
def hitState : AIState :=
  { cache := fun _ => some { data := resA, expiresAt := 10 },
    monitor := initialStats }

/-- State whose cache answers every key with an entry expired at 5. -/
def stExpired : AIState :=
  { cache := fun _ => some { data := resA, expiresAt := 5 },
    monitor := initialStats }

/-! ### Claim theorems -/

/-- Monitor with 10 calls and 4 successes. -/
def mon4of10 : MonitorStats :=
  { initialStats with totalCalls := 10, successfulCalls := 4, failedCalls := 6 }

/-- Monitor with 10 calls and 7 successes. -/
def mon7of10 : MonitorStats :=
  { initialStats with totalCalls := 10, successfulCalls := 7, failedCalls := 3 }

/-- Monitor with 10 calls, 9 successes, no quota errors. -/
def mon9of10 : MonitorStats :=
  { initialStats with totalCalls := 10, successfulCalls := 9, failedCalls := 1 }

/-- Monitor with 10 calls, 9 successes, no quota errors and 100 retries. -/
def monHighRetries : MonitorStats :=
  { initialStats with
      totalCalls := 10, successfulCalls := 9, failedCalls := 1, retries := 100 }

/-- Education section A. -/
def eduA : EducationInfo :=
  { degree := some "BSc Computer Science", university := some "State University",
    graduationYear := some 2015, certifications := none }

/-- Education section B, entirely different from A. -/
def eduB : EducationInfo :=
  { degree := some "PhD Physics", university := some "Tech Institute",
    graduationYear := some 2012, certifications := some ["AWS Architect"] }

/-- Professional section shared by both key-collision profiles. -/
def profInfoSample : ProfessionalInfo :=
  { currentTitle := some "Engineer", currentCompany := none,
    experienceYears := some 5, industry := none }

/-- Skills section shared by both key-collision profiles. -/
def otherInfoSample : OtherInfo :=
  { skills := some ["JavaScript", "Node.js"], hobbiesAndInterests := none,
    softSkills := none }

/-- Profile holding education A. -/
def profEduA : UserProfile :=
  { basicInfo := none, professionalInfo := some profInfoSample,
    otherInfo := some otherInfoSample, education := some eduA,
    jobPreferences := none }

/-- The same profile with education B instead. -/
def profEduB : UserProfile := { profEduA with education := some eduB }

/-- Concrete job posting. -/
def jdSample : JobDetails :=
  { jobTitle := some "Backend Developer", company := some "Acme",
    location := none, jobDescription := some "Build APIs in Node.js",
    requirements := none, jobUrl := none }


/-! ### Helper lemmas -/

/-- On a hit (some value returned), the read leaves the cache unchanged
and the returned value is an unexpired stored entry. -/
theorem cacheGet_fst_some (c : Cache) (key : String) (now : ℕ) (r : AnalysisResult)
    (h : (cacheGet c key now).1 = some r) :
    (cacheGet c key now).2 = c ∧
    ∃ e, c key = some e ∧ e.data = r ∧ now ≤ e.expiresAt := by
  rcases hk : c key with _ | e
  · rw [cacheGet, hk] at h
    simp at h
  · by_cases hx : now > e.expiresAt
    · rw [cacheGet, hk] at h
      simp [hx] at h
    · have hval : cacheGet c key now = (some e.data, c) := by
        rw [cacheGet, hk]
        simp [hx]
      rw [hval] at h
      simp only [Option.some.injEq] at h
      exact ⟨by rw [hval], e, rfl, h, Nat.le_of_not_lt hx⟩

/-- A read at `now2` within the lifetime of a just-written entry returns
the stored value and does not modify the cache. -/
theorem cacheGet_set_self (c : Cache) (key : String) (v : AnalysisResult)
    (now ttl now2 : ℕ) (h : now2 ≤ now + ttl) :
    cacheGet (cacheSet c key v now ttl) key now2 =
      (some v, cacheSet c key v now ttl) := by
  rw [cacheGet]
  rw [show cacheSet c key v now ttl key = some { data := v, expiresAt := now + ttl } from if_pos rfl]
  have hx : ¬ now2 > now + ttl := Nat.not_lt.mpr h
  simp [hx]

/-- The cache left behind by a read differs from the original at most by
the lazy eviction of the expired entry stored under the read key. -/
theorem cacheGet_snd_sub (c : Cache) (key : String) (now : ℕ) (k : String) :
    (cacheGet c key now).2 k = c k ∨
    ((cacheGet c key now).2 k = none ∧ ∃ e, c k = some e ∧ now > e.expiresAt) := by
  rcases hk : c key with _ | e
  · have h2 : (cacheGet c key now).2 = c := by rw [cacheGet, hk]
    exact Or.inl (by rw [h2])
  · by_cases hx : now > e.expiresAt
    · have h2 : (cacheGet c key now).2 = fun k2 => if k2 = key then none else c k2 := by
        rw [cacheGet, hk]
        simp [hx]
      by_cases hkey : k = key
      · subst hkey
        exact Or.inr ⟨by rw [h2]; exact if_pos rfl, e, hk, hx⟩
      · exact Or.inl (by rw [h2]; exact if_neg hkey)
    · have h2 : (cacheGet c key now).2 = c := by
        rw [cacheGet, hk]
        simp [hx]
      exact Or.inl (by rw [h2])

/-- The executor runs the operation at most `maxRetries` times. -/
theorem retryGo_attempts_le (fn : ℕ → Except ε α) (pred : ε → Bool)
    (b m : ℚ) (j : ℕ → ℚ) :
    ∀ r a, (retryGo fn pred b m j r a).attempts ≤ r := by
  intro r
  induction r with
  | zero => intro a; simp [retryGo]
  | succ n ih =>
    intro a
    rw [retryGo]
    cases hfn : fn a with
    | ok v => simp
    | error e =>
      by_cases hg : (!pred e || n == 0) = true
      · simp [hg]
      · simp only [hg, ite_false, Bool.false_eq_true]
        exact Nat.succ_le_succ (ih (a + 1))

/-- A thrown error of the executor is exactly an error produced by one of
the (at most `maxRetries`) operation invocations, unwrapped. -/
theorem retryGo_error_src (fn : ℕ → Except ε α) (pred : ε → Bool)
    (b m : ℚ) (j : ℕ → ℚ) :
    ∀ r a e, (retryGo fn pred b m j r a).result = .error (some e) →
      ∃ i, a ≤ i ∧ i < a + r ∧ fn i = .error e := by
  intro r
  induction r with
  | zero => intro a e h; simp [retryGo] at h
  | succ n ih =>
    intro a e h
    rw [retryGo] at h
    cases hfn : fn a with
    | ok v => rw [hfn] at h; simp at h
    | error e0 =>
      rw [hfn] at h
      by_cases hg : (!pred e0 || n == 0) = true
      · simp only [hg, ite_true] at h
        simp at h
        exact ⟨a, Nat.le_refl a, by omega, by rw [hfn, h]⟩
      · simp only [hg, ite_false, Bool.false_eq_true] at h
        obtain ⟨i, h1, h2, h3⟩ := ih (a + 1) e h
        exact ⟨i, by omega, by omega, h3⟩

/-- The predicate is invoked once per failed attempt: once per retry
actually performed, plus once more when the run ends by throwing. -/
theorem retryGo_predCalls (fn : ℕ → Except ε α) (pred : ε → Bool)
    (b m : ℚ) (j : ℕ → ℚ) :
    ∀ r a, 1 ≤ r →
      (retryGo fn pred b m j r a).predCalls =
        (retryGo fn pred b m j r a).delays.length +
          (if (retryGo fn pred b m j r a).result.isOk then 0 else 1) := by
  intro r
  induction r with
  | zero => intro a h; omega
  | succ n ih =>
    intro a _
    rw [retryGo]
    cases hfn : fn a with
    | ok v => simp [Except.isOk, Except.toBool]
    | error e =>
      by_cases hg : (!pred e || n == 0) = true
      · simp [hg, Except.isOk, Except.toBool]
      · have hn : 1 ≤ n := by
          rcases Nat.eq_zero_or_pos n with h0 | h0
          · subst h0; simp at hg
          · exact h0
        simp only [hg, ite_false, Bool.false_eq_true, List.length_cons]
        rw [ih (a + 1) hn]
        omega

/-- Unfolding of the orchestrator on a cache hit. -/
theorem analyze_hit (provider : ℕ → Except JSError String) (jit : ℕ → ℚ)
    (now : ℕ) (st : AIState) (u : UserProfile) (jd : JobDetails)
    (r : AnalysisResult)
    (h : (cacheGet st.cache (generateKey u jd) now).1 = some r) :
    analyzeJobMatch provider jit now st u jd =
      { result := .ok r,
        state := { cache := st.cache, monitor := recordCacheHit st.monitor },
        providerCalls := 0 } := by
  have h2 := (cacheGet_fst_some _ _ _ _ h).1
  simp only [analyzeJobMatch, h, h2]

/-- Unfolding of the orchestrator on a cache miss whose provider run
succeeds (projection form). -/
theorem analyze_miss_ok (provider : ℕ → Except JSError String) (jit : ℕ → ℚ)
    (now : ℕ) (st : AIState) (u : UserProfile) (jd : JobDetails)
    (completion : String)
    (h : (cacheGet st.cache (generateKey u jd) now).1 = none)
    (hres : (retryWithBackoff provider aiRetryPred 2000 30000 jit 3).result =
      .ok completion) :
    (analyzeJobMatch provider jit now st u jd).result =
      .ok (parseAIResponse completion) ∧
    (analyzeJobMatch provider jit now st u jd).state.cache =
      cacheSet (cacheGet st.cache (generateKey u jd) now).2 (generateKey u jd)
        (parseAIResponse completion) now defaultTtl ∧
    (analyzeJobMatch provider jit now st u jd).state.monitor.retries =
      st.monitor.retries +
        (retryWithBackoff provider aiRetryPred 2000 30000 jit 3).predCalls ∧
    (analyzeJobMatch provider jit now st u jd).state.monitor.cacheHits =
      st.monitor.cacheHits := by
  simp only [analyzeJobMatch, h, hres]
  simp [recordSuccess, recordCall]

/-- Unfolding of the orchestrator on a cache miss whose provider run ends
with a thrown operation error (projection form). -/
theorem analyze_miss_err (provider : ℕ → Except JSError String) (jit : ℕ → ℚ)
    (now : ℕ) (st : AIState) (u : UserProfile) (jd : JobDetails) (e : JSError)
    (h : (cacheGet st.cache (generateKey u jd) now).1 = none)
    (hres : (retryWithBackoff provider aiRetryPred 2000 30000 jit 3).result =
      .error (some e)) :
    (analyzeJobMatch provider jit now st u jd).result =
      .error (classifyError e) ∧
    (analyzeJobMatch provider jit now st u jd).state.cache =
      (cacheGet st.cache (generateKey u jd) now).2 ∧
    (analyzeJobMatch provider jit now st u jd).state.monitor.retries =
      st.monitor.retries +
        (retryWithBackoff provider aiRetryPred 2000 30000 jit 3).predCalls := by
  simp only [analyzeJobMatch, h, hres]
  simp [recordFailure, recordCall]

/-- Unfolding of the orchestrator on a cache miss whose provider run ends
on the (unreachable for maxRetries 3) undefined-throw path. -/
theorem analyze_miss_none (provider : ℕ → Except JSError String) (jit : ℕ → ℚ)
    (now : ℕ) (st : AIState) (u : UserProfile) (jd : JobDetails)
    (h : (cacheGet st.cache (generateKey u jd) now).1 = none)
    (hres : (retryWithBackoff provider aiRetryPred 2000 30000 jit 3).result =
      .error none) :
    (analyzeJobMatch provider jit now st u jd).result =
      .error (mkError "AI analysis failed: undefined") ∧
    (analyzeJobMatch provider jit now st u jd).state.cache =
      (cacheGet st.cache (generateKey u jd) now).2 ∧
    (analyzeJobMatch provider jit now st u jd).state.monitor.retries =
      st.monitor.retries +
        (retryWithBackoff provider aiRetryPred 2000 30000 jit 3).predCalls := by
  simp only [analyzeJobMatch, h, hres]
  simp [recordCall]

/-- Possible delay lists of a three-attempt run: empty, one delay before
attempt 2, or two delays before attempts 2 and 3. -/
theorem retry3_delays (fn : ℕ → Except ε α) (pred : ε → Bool)
    (b m : ℚ) (j : ℕ → ℚ) :
    (retryWithBackoff fn pred b m j 3).delays = [] ∨
    (retryWithBackoff fn pred b m j 3).delays = [attemptDelay b m (j 0) 0] ∨
    (retryWithBackoff fn pred b m j 3).delays =
      [attemptDelay b m (j 0) 0, attemptDelay b m (j 1) 1] := by
  rw [retryWithBackoff, show (3 : ℕ) = 2 + 1 from rfl, retryGo]
  cases hf0 : fn 0 with
  | ok v => simp
  | error e0 =>
    by_cases hp0 : pred e0 = true
    · simp only [hp0, Bool.not_true, Bool.false_or,
        show ((2 : ℕ) == 0) = false from rfl, Bool.false_eq_true, ite_false]
      rw [show (2 : ℕ) = 1 + 1 from rfl, retryGo]
      cases hf1 : fn (0 + 1) with
      | ok v => simp
      | error e1 =>
        by_cases hp1 : pred e1 = true
        · simp only [hp1, Bool.not_true, Bool.false_or,
            show ((1 : ℕ) == 0) = false from rfl, Bool.false_eq_true, ite_false]
          rw [show (1 : ℕ) = 0 + 1 from rfl, retryGo]
          cases hf2 : fn (0 + 1 + 1) with
          | ok v => simp
          | error e2 => simp
        · have hp1f : pred e1 = false := by simpa using hp1
          simp [hp1f]
    · have hp0f : pred e0 = false := by simpa using hp0
      simp [hp0f]

/-- Bounds of the delay before attempt 2 for the orchestrator policy. -/
theorem attemptDelay0_bounds (jv : ℚ) (h0 : 0 ≤ jv) (h1 : jv < 1) :
    2000 ≤ attemptDelay 2000 30000 jv 0 ∧ attemptDelay 2000 30000 jv 0 < 2600 := by
  have he : expDelay 2000 30000 0 = 2000 := by
    rw [expDelay]
    norm_num [min_def]
  rw [attemptDelay, he]
  constructor <;> nlinarith

/-- Bounds of the delay before attempt 3 for the orchestrator policy. -/
theorem attemptDelay1_bounds (jv : ℚ) (h0 : 0 ≤ jv) (h1 : jv < 1) :
    4000 ≤ attemptDelay 2000 30000 jv 1 ∧ attemptDelay 2000 30000 jv 1 < 5200 := by
  have he : expDelay 2000 30000 1 = 4000 := by
    rw [expDelay]
    norm_num [min_def]
  rw [attemptDelay, he]
  constructor <;> nlinarith

/-- Claim C1: whenever the cache holds an unexpired entry for the key of
(context, payload), analyzeJobMatch records exactly one cache hit on the
monitor (and nothing else), returns the cached result, performs no
provider call, no recordCall and no cache write; and after a successful
first call on a cache miss, a second call with the same inputs within the
TTL window records a cache hit and does not invoke the provider. -/
theorem C1_cache_hit_no_provider :
    (∀ (provider : ℕ → Except JSError String) (jit : ℕ → ℚ) (now : ℕ)
       (st : AIState) (u : UserProfile) (jd : JobDetails) (r : AnalysisResult),
       (cacheGet st.cache (generateKey u jd) now).1 = some r →
       (analyzeJobMatch provider jit now st u jd).result = .ok r ∧
       (analyzeJobMatch provider jit now st u jd).state.cache = st.cache ∧
       (analyzeJobMatch provider jit now st u jd).state.monitor =
         { st.monitor with cacheHits := st.monitor.cacheHits + 1 } ∧
       (analyzeJobMatch provider jit now st u jd).providerCalls = 0) ∧
    (∀ (provider provider2 : ℕ → Except JSError String) (jit jit2 : ℕ → ℚ)
       (now now2 : ℕ) (st : AIState) (u : UserProfile) (jd : JobDetails)
       (r : AnalysisResult),
       (cacheGet st.cache (generateKey u jd) now).1 = none →
       (analyzeJobMatch provider jit now st u jd).result = .ok r →
       now2 ≤ now + defaultTtl →
       (analyzeJobMatch provider2 jit2 now2
          (analyzeJobMatch provider jit now st u jd).state u jd).result = .ok r ∧
       (analyzeJobMatch provider2 jit2 now2
          (analyzeJobMatch provider jit now st u jd).state u jd).providerCalls = 0 ∧
       (analyzeJobMatch provider2 jit2 now2
          (analyzeJobMatch provider jit now st u jd).state u jd).state.monitor.cacheHits =
         (analyzeJobMatch provider jit now st u jd).state.monitor.cacheHits + 1) := by
  have hit : ∀ (provider : ℕ → Except JSError String) (jit : ℕ → ℚ) (now : ℕ)
      (st : AIState) (u : UserProfile) (jd : JobDetails) (r : AnalysisResult),
      (cacheGet st.cache (generateKey u jd) now).1 = some r →
      (analyzeJobMatch provider jit now st u jd).result = .ok r ∧
      (analyzeJobMatch provider jit now st u jd).state.cache = st.cache ∧
      (analyzeJobMatch provider jit now st u jd).state.monitor =
        { st.monitor with cacheHits := st.monitor.cacheHits + 1 } ∧
      (analyzeJobMatch provider jit now st u jd).providerCalls = 0 := by
    intro provider jit now st u jd r h
    rw [analyze_hit provider jit now st u jd r h]
    exact ⟨rfl, rfl, rfl, rfl⟩
  refine ⟨hit, ?_⟩
  intro provider provider2 jit jit2 now now2 st u jd r hmiss hok hts
  cases hres : (retryWithBackoff provider aiRetryPred 2000 30000 jit 3).result with
  | error oe =>
    cases oe with
    | none =>
      have h1 := (analyze_miss_none provider jit now st u jd hmiss hres).1
      rw [h1] at hok
      exact absurd hok (by simp)
    | some e =>
      have h1 := (analyze_miss_err provider jit now st u jd e hmiss hres).1
      rw [h1] at hok
      exact absurd hok (by simp)
  | ok c =>
    obtain ⟨h1, h2, _, _⟩ := analyze_miss_ok provider jit now st u jd c hmiss hres
    rw [h1] at hok
    injection hok with hr
    rw [hr] at h2
    have hget : (cacheGet (analyzeJobMatch provider jit now st u jd).state.cache
        (generateKey u jd) now2).1 = some r := by
      rw [h2, cacheGet_set_self _ _ _ _ _ _ hts]
    obtain ⟨g1, _, g3, g4⟩ :=
      hit provider2 jit2 now2 (analyzeJobMatch provider jit now st u jd).state u jd r hget
    refine ⟨g1, g4, ?_⟩
    rw [g3]

/-- Witness for C1: a populated unexpired cache entry is returned with
zero provider calls; and after a successful first call on an empty cache,
a second call within the TTL returns the same result with zero provider
calls and one more cache hit. -/
theorem C1_cache_hit_no_provider_witness :
    (cacheGet hitState.cache (generateKey uEmpty jdEmpty) 5).1 = some resA ∧
    (analyzeJobMatch provFail400 jit0 5 hitState uEmpty jdEmpty).result = .ok resA ∧
    (analyzeJobMatch provFail400 jit0 5 hitState uEmpty jdEmpty).state.cache =
      hitState.cache ∧
    (analyzeJobMatch provFail400 jit0 5 hitState uEmpty jdEmpty).providerCalls = 0 ∧
    (analyzeJobMatch provFail429 jit0 100
        (analyzeJobMatch provOk82 jit0 0 st0 uEmpty jdEmpty).state
        uEmpty jdEmpty).result = .ok (parseAIResponse comp82) ∧
    (analyzeJobMatch provFail429 jit0 100
        (analyzeJobMatch provOk82 jit0 0 st0 uEmpty jdEmpty).state
        uEmpty jdEmpty).providerCalls = 0 := by
  have h : (cacheGet hitState.cache (generateKey uEmpty jdEmpty) 5).1 = some resA := rfl
  obtain ⟨h1, h2, _, h4⟩ :=
    C1_cache_hit_no_provider.1 provFail400 jit0 5 hitState uEmpty jdEmpty resA h
  have hfirst : (analyzeJobMatch provOk82 jit0 0 st0 uEmpty jdEmpty).result =
      .ok (parseAIResponse comp82) :=
    (analyze_miss_ok provOk82 jit0 0 st0 uEmpty jdEmpty comp82 rfl (by decide)).1
  obtain ⟨g1, g2, _⟩ :=
    C1_cache_hit_no_provider.2 provOk82 provFail429 jit0 jit0 0 100 st0 uEmpty
      jdEmpty (parseAIResponse comp82) rfl hfirst (by decide)
  exact ⟨h, h1, h2, h4, g1, g2⟩

/-- Claim C2 (amended): a set followed immediately by a get with the same
key returns the stored value unchanged without modifying the cache; a get
after expiresAt has passed returns absent and deletes the entry; and an
entry is only ever returned by get if now ≤ expiresAt at the time of the
read (at the exact boundary instant now = expiresAt the entry is still
returned, which is the one amendment to the claim's strict now <
expiresAt). -/
theorem C2_cache_correctness :
    (∀ (c : Cache) (k : String) (v : AnalysisResult) (now ttl : ℕ),
       cacheGet (cacheSet c k v now ttl) k now =
         (some v, cacheSet c k v now ttl)) ∧
    (∀ (c : Cache) (k : String) (e : CacheEntry) (now : ℕ),
       c k = some e → now > e.expiresAt →
       (cacheGet c k now).1 = none ∧ (cacheGet c k now).2 k = none) ∧
    (∀ (c : Cache) (k : String) (now : ℕ) (v : AnalysisResult),
       (cacheGet c k now).1 = some v →
       ∃ e, c k = some e ∧ e.data = v ∧ now ≤ e.expiresAt) := by
  refine ⟨?_, ?_, ?_⟩
  · intro c k v now ttl
    exact cacheGet_set_self c k v now ttl now (Nat.le_add_right now ttl)
  · intro c k e now hk hx
    have hval : cacheGet c k now = (none, fun k2 => if k2 = k then none else c k2) := by
      rw [cacheGet, hk]
      simp [hx]
    rw [hval]
    exact ⟨rfl, if_pos rfl⟩
  · intro c k now v h
    exact (cacheGet_fst_some c k now v h).2

/-- Witness for C2 at concrete caches, keys and instants. -/
theorem C2_cache_correctness_witness :
    cacheGet (cacheSet emptyCache "a" resA 3 7) "a" 3 =
      (some resA, cacheSet emptyCache "a" resA 3 7) ∧
    ((cacheGet (fun _ => some { data := resA, expiresAt := 9 }) "a" 20).1 = none ∧
     (cacheGet (fun _ => some { data := resA, expiresAt := 9 }) "a" 20).2 "a" = none) ∧
    (∃ e, (fun _ => some { data := resA, expiresAt := 8 } : Cache) "a" = some e ∧
       e.data = resA ∧ 4 ≤ e.expiresAt) := by
  refine ⟨C2_cache_correctness.1 emptyCache "a" resA 3 7, ?_, ?_⟩
  · exact C2_cache_correctness.2.1 (fun _ => some { data := resA, expiresAt := 9 })
      "a" { data := resA, expiresAt := 9 } 20 rfl (by decide)
  · exact C2_cache_correctness.2.2 (fun _ => some { data := resA, expiresAt := 8 })
      "a" 4 resA rfl

/-- Counterexample to C2 as stated: an entry written at 0 with ttl 5 has
expiresAt = 5, and a get at now = 5 still returns it although now <
expiresAt fails — the code only evicts when now > expiresAt. -/
theorem C2_boundary_counterexample :
    (cacheSet emptyCache "k" resA 0 5) "k" = some { data := resA, expiresAt := 5 } ∧
    (cacheGet (cacheSet emptyCache "k" resA 0 5) "k" 5).1 = some resA ∧
    ¬ (5 < 5) := by
  refine ⟨if_pos rfl, ?_, by omega⟩
  rw [cacheGet_set_self emptyCache "k" resA 0 5 5 (by omega)]

/-- Claim C3 (amended): the executor runs the operation at most
maxAttempts times; maxAttempts = 1 performs exactly one attempt with no
retry regardless of the predicate, while maxAttempts = 0 performs zero
attempts (not one) and throws the undefined lastError; and any thrown
operation error propagates to the caller unchanged (it is exactly the
error produced by one of the attempts, with no wrapping). -/
theorem C3_retry_attempt_bounds :
    ∀ (ε α : Type) (fn : ℕ → Except ε α) (pred : ε → Bool) (base maxD : ℚ)
      (jit : ℕ → ℚ) (maxRetries : ℕ),
      (retryWithBackoff fn pred base maxD jit maxRetries).attempts ≤ maxRetries ∧
      (maxRetries = 1 →
        (retryWithBackoff fn pred base maxD jit maxRetries).attempts = 1 ∧
        (retryWithBackoff fn pred base maxD jit maxRetries).delays = []) ∧
      (maxRetries = 0 →
        (retryWithBackoff fn pred base maxD jit maxRetries).attempts = 0 ∧
        (retryWithBackoff fn pred base maxD jit maxRetries).result = .error none) ∧
      (∀ e, (retryWithBackoff fn pred base maxD jit maxRetries).result =
          .error (some e) →
        ∃ i, i < maxRetries ∧ fn i = .error e) := by
  intro ε α fn pred base maxD jit maxRetries
  refine ⟨?_, ?_, ?_, ?_⟩
  · rw [retryWithBackoff]
    exact retryGo_attempts_le fn pred base maxD jit maxRetries 0
  · intro h1
    subst h1
    rw [retryWithBackoff, show (1 : ℕ) = 0 + 1 from rfl, retryGo]
    cases hf : fn 0 with
    | ok v => exact ⟨rfl, rfl⟩
    | error e => simp
  · intro h0
    subst h0
    exact ⟨rfl, rfl⟩
  · intro e h
    rw [retryWithBackoff] at h
    obtain ⟨i, _, h2, h3⟩ := retryGo_error_src fn pred base maxD jit maxRetries 0 e h
    exact ⟨i, by omega, h3⟩

/-- Witness for C3 with a one-attempt policy and an always-failing
operation under an always-true predicate. -/
theorem C3_retry_attempt_bounds_witness :
    (retryWithBackoff provFail400 (fun _ => true) 1000 10000 jit0 1).attempts ≤ 1 ∧
    ((retryWithBackoff provFail400 (fun _ => true) 1000 10000 jit0 1).attempts = 1 ∧
     (retryWithBackoff provFail400 (fun _ => true) 1000 10000 jit0 1).delays = []) ∧
    ((retryWithBackoff provFail400 (fun _ => true) 1000 10000 jit0 0).attempts = 0 ∧
     (retryWithBackoff provFail400 (fun _ => true) 1000 10000 jit0 0).result =
       .error none) ∧
    (∃ i, i < 1 ∧ provFail400 i = .error e400) := by
  have h1 := C3_retry_attempt_bounds JSError String provFail400 (fun _ => true)
    1000 10000 jit0 1
  have h0 := C3_retry_attempt_bounds JSError String provFail400 (fun _ => true)
    1000 10000 jit0 0
  exact ⟨h1.1, h1.2.1 rfl, h0.2.2.1 rfl, h1.2.2.2 e400 (by decide)⟩

/-- Counterexample to C3 as stated: with maxAttempts = 0 the loop body
never runs, so the executor performs zero attempts, not exactly one. -/
theorem C3_zero_attempts_counterexample :
    (retryWithBackoff provFail400 (fun _ => true) 1000 10000 jit0 0).attempts = 0 ∧
    (retryWithBackoff provFail400 (fun _ => true) 1000 10000 jit0 0).attempts ≠ 1 := by
  decide

/-- Claim C4: under the orchestrator policy (maxAttempts 3, baseDelay
2000, maxDelay 30000) and jitter draws in [0,1), the number of attempts
never exceeds 3, the delay before attempt 2 lies in [2000, 2600), and the
delay before attempt 3 lies in [4000, 5200). -/
theorem C4_backoff_delay_bounds :
    ∀ (fn : ℕ → Except JSError String) (pred : JSError → Bool) (jit : ℕ → ℚ),
      (∀ n, 0 ≤ jit n ∧ jit n < 1) →
      (retryWithBackoff fn pred 2000 30000 jit 3).attempts ≤ 3 ∧
      (∀ d, (retryWithBackoff fn pred 2000 30000 jit 3).delays[0]? = some d →
        2000 ≤ d ∧ d < 2600) ∧
      (∀ d, (retryWithBackoff fn pred 2000 30000 jit 3).delays[1]? = some d →
        4000 ≤ d ∧ d < 5200) := by
  intro fn pred jit hj
  refine ⟨?_, ?_, ?_⟩
  · rw [retryWithBackoff]
    exact retryGo_attempts_le fn pred 2000 30000 jit 3 0
  · intro d hd
    rcases retry3_delays fn pred 2000 30000 jit with h | h | h <;> rw [h] at hd
    · simp at hd
    · simp only [List.getElem?_cons_zero, Option.some.injEq] at hd
      rw [← hd]
      exact attemptDelay0_bounds (jit 0) (hj 0).1 (hj 0).2
    · simp only [List.getElem?_cons_zero, Option.some.injEq] at hd
      rw [← hd]
      exact attemptDelay0_bounds (jit 0) (hj 0).1 (hj 0).2
  · intro d hd
    rcases retry3_delays fn pred 2000 30000 jit with h | h | h <;> rw [h] at hd
    · simp at hd
    · simp at hd
    · simp only [List.getElem?_cons_succ, List.getElem?_cons_zero,
        Option.some.injEq] at hd
      rw [← hd]
      exact attemptDelay1_bounds (jit 1) (hj 1).1 (hj 1).2

/-- Witness for C4: an always-failing provider under an always-true
predicate with zero jitter waits the exact base delays 2000 and 4000. -/
theorem C4_backoff_delay_bounds_witness :
    (retryWithBackoff provFail429 (fun _ => true) 2000 30000 jit0 3).attempts ≤ 3 ∧
    (2000 ≤ attemptDelay 2000 30000 (jit0 0) 0 ∧
      attemptDelay 2000 30000 (jit0 0) 0 < 2600) ∧
    (4000 ≤ attemptDelay 2000 30000 (jit0 1) 1 ∧
      attemptDelay 2000 30000 (jit0 1) 1 < 5200) := by
  have hds : (retryWithBackoff provFail429 (fun _ => true) 2000 30000 jit0 3).delays =
      [attemptDelay 2000 30000 (jit0 0) 0, attemptDelay 2000 30000 (jit0 1) 1] := by
    rw [retryWithBackoff, show (3 : ℕ) = 2 + 1 from rfl, retryGo]
    simp only [provFail429, Bool.not_true, Bool.false_or,
      show ((2 : ℕ) == 0) = false from rfl, Bool.false_eq_true, ite_false]
    rw [show (2 : ℕ) = 1 + 1 from rfl, retryGo]
    simp only [provFail429, Bool.not_true, Bool.false_or,
      show ((1 : ℕ) == 0) = false from rfl, Bool.false_eq_true, ite_false]
    rw [show (1 : ℕ) = 0 + 1 from rfl, retryGo]
    simp [provFail429]
  have h := C4_backoff_delay_bounds provFail429 (fun _ => true) jit0
    (fun n => by constructor <;> norm_num [jit0])
  refine ⟨h.1, ?_, ?_⟩
  · exact h.2.1 (attemptDelay 2000 30000 (jit0 0) 0) (by rw [hds]; rfl)
  · exact h.2.2 (attemptDelay 2000 30000 (jit0 1) 1) (by rw [hds]; rfl)

/-- Characterization of the getHealth status: critical iff rate < 50%,
warning iff not critical and (rate < 80% or frequent quota errors),
healthy otherwise.  The retry counter never affects the status. -/
theorem getHealth_status_spec (s : MonitorStats) :
    ((getHealth s).status = "critical" ↔ successRate s < 1 / 2) ∧
    ((getHealth s).status = "warning" ↔
      ¬ successRate s < 1 / 2 ∧
        (successRate s < 4 / 5 ∨ isQuotaErrorFrequent s = true)) ∧
    ((getHealth s).status = "healthy" ↔
      ¬ successRate s < 1 / 2 ∧ ¬ successRate s < 4 / 5 ∧
        isQuotaErrorFrequent s = false) := by
  simp only [getHealth]
  split_ifs <;> simp_all

/-- Success rate of the 4-of-10 monitor. -/
theorem mon4of10_rate : successRate mon4of10 = 4 / 10 := by
  rw [successRate]
  norm_num [mon4of10, initialStats]

/-- Success rate of the 7-of-10 monitor. -/
theorem mon7of10_rate : successRate mon7of10 = 7 / 10 := by
  rw [successRate]
  norm_num [mon7of10, initialStats]

/-- Success rate of the 9-of-10 monitor. -/
theorem mon9of10_rate : successRate mon9of10 = 9 / 10 := by
  rw [successRate]
  norm_num [mon9of10, initialStats]

/-- The 9-of-10 monitor has no frequent quota errors. -/
theorem mon9of10_quota : isQuotaErrorFrequent mon9of10 = false := by
  rw [isQuotaErrorFrequent]
  norm_num [mon9of10, initialStats]

/-- Success rate of the high-retry monitor. -/
theorem monHighRetries_rate : successRate monHighRetries = 9 / 10 := by
  rw [successRate]
  norm_num [monHighRetries, initialStats]

/-- The high-retry monitor has no frequent quota errors. -/
theorem monHighRetries_quota : isQuotaErrorFrequent monHighRetries = false := by
  rw [isQuotaErrorFrequent]
  norm_num [monHighRetries, initialStats]

/-- Claim C5 (amended): getHealth returns critical exactly when the
success rate is below 50%; warning exactly when the rate is in [50%, 80%)
or quota errors exceed 30% of failures (and the rate is not below 50%);
healthy otherwise.  The retry count never influences the status (the
high-retry check only appends recommendations), which is the one
amendment to the claim.  In particular 4/10 is critical, 7/10 is warning,
and 9/10 with no quota errors is healthy. -/
theorem C5_health_thresholds :
    (∀ s : MonitorStats,
       ((getHealth s).status = "critical" ↔ successRate s < 1 / 2) ∧
       ((getHealth s).status = "warning" ↔
         ¬ successRate s < 1 / 2 ∧
           (successRate s < 4 / 5 ∨ isQuotaErrorFrequent s = true)) ∧
       ((getHealth s).status = "healthy" ↔
         ¬ successRate s < 1 / 2 ∧ ¬ successRate s < 4 / 5 ∧
           isQuotaErrorFrequent s = false)) ∧
    (getHealth mon4of10).status = "critical" ∧
    (getHealth mon7of10).status = "warning" ∧
    (getHealth mon9of10).status = "healthy" := by
  refine ⟨getHealth_status_spec, ?_, ?_, ?_⟩
  · exact (getHealth_status_spec mon4of10).1.mpr (by rw [mon4of10_rate]; norm_num)
  · exact (getHealth_status_spec mon7of10).2.1.mpr
      ⟨by rw [mon7of10_rate]; norm_num, Or.inl (by rw [mon7of10_rate]; norm_num)⟩
  · exact (getHealth_status_spec mon9of10).2.2.mpr
      ⟨by rw [mon9of10_rate]; norm_num, by rw [mon9of10_rate]; norm_num,
       mon9of10_quota⟩

/-- Counterexample to C5 as stated: a monitor with 9/10 successes, no
quota errors and 100 retries has retries exceeding twice the
successful-call count, yet getHealth reports healthy, not warning — the
high-retry branch never changes the status. -/
theorem C5_high_retries_counterexample :
    (getHealth monHighRetries).status = "healthy" ∧
    monHighRetries.retries > 2 * monHighRetries.successfulCalls ∧
    ¬ (getHealth monHighRetries).status = "warning" := by
  have hh : (getHealth monHighRetries).status = "healthy" :=
    (getHealth_status_spec monHighRetries).2.2.mpr
      ⟨by rw [monHighRetries_rate]; norm_num, by rw [monHighRetries_rate]; norm_num,
       monHighRetries_quota⟩
  refine ⟨hh, by norm_num [monHighRetries, initialStats], ?_⟩
  rw [hh]
  decide

/-- Claim C6 (amended): on a cache miss, the monitor's retries counter
increases by exactly the number of shouldRetry invocations, which is one
per failed provider attempt: the number of retries actually performed
(the waited delays) plus one more when the run ends by throwing.  (The
claim as stated — an increase equal to the retries actually performed —
fails because the final, non-retried failure also records a retry.) -/
theorem C6_retry_counter_accounting :
    ∀ (provider : ℕ → Except JSError String) (jit : ℕ → ℚ) (now : ℕ)
      (st : AIState) (u : UserProfile) (jd : JobDetails),
      (cacheGet st.cache (generateKey u jd) now).1 = none →
      (analyzeJobMatch provider jit now st u jd).state.monitor.retries =
        st.monitor.retries +
          (retryWithBackoff provider aiRetryPred 2000 30000 jit 3).predCalls ∧
      (retryWithBackoff provider aiRetryPred 2000 30000 jit 3).predCalls =
        (retryWithBackoff provider aiRetryPred 2000 30000 jit 3).delays.length +
          (if (retryWithBackoff provider aiRetryPred 2000 30000 jit 3).result.isOk
           then 0 else 1) := by
  intro provider jit now st u jd h
  constructor
  · cases hres : (retryWithBackoff provider aiRetryPred 2000 30000 jit 3).result with
    | ok c => exact (analyze_miss_ok provider jit now st u jd c h hres).2.2.1
    | error oe =>
      cases oe with
      | none => exact (analyze_miss_none provider jit now st u jd h hres).2.2
      | some e => exact (analyze_miss_err provider jit now st u jd e h hres).2.2
  · rw [retryWithBackoff]
    exact retryGo_predCalls provider aiRetryPred 2000 30000 jit 3 0 (by omega)

/-- Witness for C6 on a fresh state with a provider that always fails
with a non-retriable 400 error. -/
theorem C6_retry_counter_accounting_witness :
    (analyzeJobMatch provFail400 jit0 0 st0 uEmpty jdEmpty).state.monitor.retries =
      st0.monitor.retries +
        (retryWithBackoff provFail400 aiRetryPred 2000 30000 jit0 3).predCalls ∧
    (retryWithBackoff provFail400 aiRetryPred 2000 30000 jit0 3).predCalls =
      (retryWithBackoff provFail400 aiRetryPred 2000 30000 jit0 3).delays.length +
        (if (retryWithBackoff provFail400 aiRetryPred 2000 30000 jit0 3).result.isOk
         then 0 else 1) :=
  C6_retry_counter_accounting provFail400 jit0 0 st0 uEmpty jdEmpty rfl

/-- Counterexample to C6 as stated: a single non-retriable failure (400)
performs zero retries — no delay is ever waited — yet the retries counter
increases by one, because the orchestrator's shouldRetry hook records a
retry before rejecting the error. -/
theorem C6_nonretried_failure_counterexample :
    (analyzeJobMatch provFail400 jit0 7 st0 uEmpty jdEmpty).state.monitor.retries = 1 ∧
    st0.monitor.retries = 0 ∧
    (retryWithBackoff provFail400 aiRetryPred 2000 30000 jit0 3).delays.length = 0 ∧
    (retryWithBackoff provFail400 aiRetryPred 2000 30000 jit0 3).attempts = 1 := by
  refine ⟨?_, rfl, by decide, by decide⟩
  have h := (analyze_miss_err provFail400 jit0 7 st0 uEmpty jdEmpty e400 rfl
    (by decide)).2.2
  rw [h]
  decide

/-- Claim C7: recordFailure prepends one entry (timestamp, message,
status, code) to the error log, keeps the log at the newest-first bound
of 50 entries, increments the failure counter, and increments the
quota-error counter exactly when the error carries a quota message, a
"429" message, or a 429 status. -/
theorem C7_record_failure_log :
    ∀ (s : MonitorStats) (e : JSError) (now : ℕ),
      (recordFailure s e now).failedCalls = s.failedCalls + 1 ∧
      (recordFailure s e now).errors =
        ({ timestamp := now, message := e.message, status := e.status,
           code := e.code } :: s.errors).take maxErrors ∧
      (recordFailure s e now).errors.head? =
        some { timestamp := now, message := e.message, status := e.status,
               code := e.code } ∧
      (recordFailure s e now).errors.length = min (s.errors.length + 1) maxErrors ∧
      (recordFailure s e now).quotaErrors =
        s.quotaErrors + (if isQuotaSignal e then 1 else 0) := by
  intro s e now
  have herr : (recordFailure s e now).errors =
      ({ timestamp := now, message := e.message, status := e.status,
         code := e.code : ErrorEntry } :: s.errors).take maxErrors := by
    simp only [recordFailure]
    split
    · rfl
    · next hl => exact (List.take_of_length_le (Nat.le_of_not_lt hl)).symm
  refine ⟨rfl, herr, ?_, ?_, rfl⟩
  · rw [herr, show maxErrors = 49 + 1 from rfl, List.take_succ_cons]
    rfl
  · rw [herr, List.length_take, List.length_cons]
    omega

/-- Claim C8: the generateKey fingerprint reads the education component
from userProfile.otherInfo?.education, but the profile schema keeps
education as a top-level sibling of otherInfo, so that read is always
undefined and serializes as the empty array: two profiles that differ
only in their education section produce the identical cache key, against
the claim that a difference in any listed key field changes the key. -/
theorem C8_education_key_collision :
    generateKey profEduA jdSample = generateKey profEduB jdSample ∧
    profEduA.education ≠ profEduB.education ∧
    profEduA.otherInfo = profEduB.otherInfo ∧
    profEduA.professionalInfo = profEduB.professionalInfo ∧
    profEduA.basicInfo = profEduB.basicInfo ∧
    profEduA.jobPreferences = profEduB.jobPreferences := by
  refine ⟨rfl, by simp [profEduA, profEduB, eduA, eduB], rfl, rfl, rfl, rfl⟩

/-- Claim C9: parseAIResponse is total and bounded: the score is at most
100 (the first integer after the match-percentage label clamped to 100,
and 50 when the label yields no integer), each list keeps at most five
items, the narrative keeps at most 2000 characters, and a completion
missing the improvement-list section yields an empty improvements list. -/
theorem C9_parse_totality_bounds :
    ∀ s : String,
      (parseAIResponse s).matchingPercentage ≤ 100 ∧
      (∀ n, scanLabelNum mpLabel s.data = some n →
        (parseAIResponse s).matchingPercentage = min 100 n) ∧
      (scanLabelNum mpLabel s.data = none →
        (parseAIResponse s).matchingPercentage = 50) ∧
      (parseAIResponse s).strengths.length ≤ 5 ∧
      (parseAIResponse s).areasToImprove.length ≤ 5 ∧
      (parseAIResponse s).detailedAnalysis.length ≤ 2000 ∧
      (afterCI areasLabel s.data = none →
        (parseAIResponse s).areasToImprove = []) := by
  intro s
  refine ⟨?_, ?_, ?_, ?_, ?_, ?_, ?_⟩
  · show min 100 ((scanLabelNum mpLabel s.data).getD 50) ≤ 100
    exact min_le_left _ _
  · intro n hn
    show min 100 ((scanLabelNum mpLabel s.data).getD 50) = min 100 n
    rw [hn]
    rfl
  · intro hn
    show min 100 ((scanLabelNum mpLabel s.data).getD 50) = 50
    rw [hn]
    show min 100 50 = 50
    omega
  · show ((match afterCI strengthsLabel s.data with
      | some rest => extractListItems (uptoCI areasLabel rest)
      | none => []).take 5).length ≤ 5
    exact List.length_take_le _ _
  · show ((match afterCI areasLabel s.data with
      | some rest => extractListItems (uptoCI detailedLabel rest)
      | none => []).take 5).length ≤ 5
    exact List.length_take_le _ _
  · show (String.mk ((match afterCI detailedLabel s.data with
      | some rest => trimChars rest
      | none => s.data).take 2000)).length ≤ 2000
    show ((match afterCI detailedLabel s.data with
      | some rest => trimChars rest
      | none => s.data).take 2000).length ≤ 2000
    exact List.length_take_le _ _
  · intro h
    show ((match afterCI areasLabel s.data with
      | some rest => extractListItems (uptoCI detailedLabel rest)
      | none => []).take 5) = []
    rw [h]
    rfl

/-- Witness for C9 at a label-free completion and at a completion
carrying the match-percentage label. -/
theorem C9_parse_totality_bounds_witness :
    (parseAIResponse "hello").matchingPercentage ≤ 100 ∧
    (parseAIResponse "hello").matchingPercentage = 50 ∧
    (parseAIResponse "hello").areasToImprove = [] ∧
    (parseAIResponse "MATCHING_PERCENTAGE: 82").matchingPercentage = min 100 82 := by
  have h1 := C9_parse_totality_bounds "hello"
  have h2 := C9_parse_totality_bounds "MATCHING_PERCENTAGE: 82"
  exact ⟨h1.1, h1.2.2.1 rfl, h1.2.2.2.2.2.2 rfl, h2.2.1 82 rfl⟩

/-- Claim C10 (amended): an invocation of analyzeJobMatch that throws
never stores or updates a cache entry — every key still maps to its
original entry, except that the key looked up may have had an
already-expired entry lazily evicted during the initial read; the cache
write happens only on the success path.  (The claim's blanket "cache left
unchanged" fails only on that lazy-eviction case.) -/
theorem C10_error_path_cache :
    ∀ (provider : ℕ → Except JSError String) (jit : ℕ → ℚ) (now : ℕ)
      (st : AIState) (u : UserProfile) (jd : JobDetails) (err : JSError),
      (analyzeJobMatch provider jit now st u jd).result = .error err →
      ∀ k, (analyzeJobMatch provider jit now st u jd).state.cache k = st.cache k ∨
        ((analyzeJobMatch provider jit now st u jd).state.cache k = none ∧
         ∃ e, st.cache k = some e ∧ now > e.expiresAt) := by
  intro provider jit now st u jd err herr k
  rcases hg : (cacheGet st.cache (generateKey u jd) now).1 with _ | r
  · cases hres : (retryWithBackoff provider aiRetryPred 2000 30000 jit 3).result with
    | ok c =>
      have h1 := (analyze_miss_ok provider jit now st u jd c hg hres).1
      rw [h1] at herr
      exact absurd herr (by simp)
    | error oe =>
      cases oe with
      | none =>
        have hc := (analyze_miss_none provider jit now st u jd hg hres).2.1
        rw [hc]
        exact cacheGet_snd_sub st.cache (generateKey u jd) now k
      | some e =>
        have hc := (analyze_miss_err provider jit now st u jd e hg hres).2.1
        rw [hc]
        exact cacheGet_snd_sub st.cache (generateKey u jd) now k
  · have h1 := analyze_hit provider jit now st u jd r hg
    rw [h1] at herr
    exact absurd herr (by simp)

/-- Witness for C10 on a failing provider over a fresh empty cache. -/
theorem C10_error_path_cache_witness :
    (analyzeJobMatch provFail400 jit0 0 st0 uEmpty jdEmpty).result =
      .error (classifyError e400) ∧
    ((analyzeJobMatch provFail400 jit0 0 st0 uEmpty jdEmpty).state.cache "a" =
        st0.cache "a" ∨
      ((analyzeJobMatch provFail400 jit0 0 st0 uEmpty jdEmpty).state.cache "a" = none ∧
       ∃ e, st0.cache "a" = some e ∧ 0 > e.expiresAt)) := by
  have h1 : (analyzeJobMatch provFail400 jit0 0 st0 uEmpty jdEmpty).result =
      .error (classifyError e400) :=
    (analyze_miss_err provFail400 jit0 0 st0 uEmpty jdEmpty e400 rfl (by decide)).1
  exact ⟨h1, C10_error_path_cache provFail400 jit0 0 st0 uEmpty jdEmpty
    (classifyError e400) h1 "a"⟩

/-- Counterexample to C10 as stated: a failing invocation that finds an
expired entry under its key evicts that entry, so the cache it leaves
behind differs from the one it started with. -/
theorem C10_expired_eviction_counterexample :
    (analyzeJobMatch provFail400 jit0 10 stExpired uEmpty jdEmpty).result =
      .error (classifyError e400) ∧
    stExpired.cache (generateKey uEmpty jdEmpty) =
      some { data := resA, expiresAt := 5 } ∧
    (analyzeJobMatch provFail400 jit0 10 stExpired uEmpty jdEmpty).state.cache
      (generateKey uEmpty jdEmpty) = none ∧
    (analyzeJobMatch provFail400 jit0 10 stExpired uEmpty jdEmpty).state.cache ≠
      stExpired.cache := by
  have hg : (cacheGet stExpired.cache (generateKey uEmpty jdEmpty) 10).1 = none := by
    rw [cacheGet]
    simp [stExpired]
  have hres : (retryWithBackoff provFail400 aiRetryPred 2000 30000 jit0 3).result =
      .error (some e400) := by decide
  obtain ⟨h1, h2, _⟩ :=
    analyze_miss_err provFail400 jit0 10 stExpired uEmpty jdEmpty e400 hg hres
  have h3 : (analyzeJobMatch provFail400 jit0 10 stExpired uEmpty jdEmpty).state.cache
      (generateKey uEmpty jdEmpty) = none := by
    rw [h2, cacheGet]
    simp [stExpired]
  refine ⟨h1, rfl, h3, ?_⟩
  intro hEq
  have hpt := congrFun hEq (generateKey uEmpty jdEmpty)
  rw [h3] at hpt
  simp [stExpired] at hpt

end AIJob
